import Mathlib

/-!
Verification of the pushover client library (gregdel/pushover).

This file shallowly embeds the parts of the library that the claims are
about: the message and glance validators, the request encoder, the quota
header parser, the response/transport handling, and the custom JSON
decoding helpers for receipt details.  Pure Go functions become Lean
functions; the HTTP exchange is modelled by passing the server response
(status code, body, headers) explicitly; fallible Go functions returning
an error become Option/Except values.

The repository snapshot contains several historical revisions of each Go
file.  The current revision of message.go (the one exercised by the test
suite in src/unnamed/part_000, which uses rune counting for the length
checks, comma separated device lists, and an attachment reader with
fixed file name "attachment") is not itself part of the snapshot: only
its tests and callers are.  The definitions that depend on that missing
revision are modelled from the spec and are marked as such in their doc
comments.  Everything else is translated directly from the Go sources.
-/

namespace Pushover

/-! ### API limitation constants (src/pushover.go) -/

def MessageMaxLength : Nat := 1024

def MessageTitleMaxLength : Nat := 250

def MessageURLMaxLength : Nat := 512

def MessageURLTitleMaxLength : Nat := 100

def GlancesMessageMaxTitleLength : Nat := 100

def GlancesMessageMaxTextLength : Nat := 100

def GlancesMessageMaxSubtextLength : Nat := 100

def MessageMaxAttachmentByte : Nat := 2621440

/-! ### Message priorities (src/pushover.go) -/

def PriorityLowest : Int := -2

def PriorityLow : Int := -1

def PriorityNormal : Int := 0

def PriorityHigh : Int := 1

def PriorityEmergency : Int := 2

/-- Errors of the library, one constructor per `errors.New` value of the
Go sources (only the ones the claims touch are listed). -/
inductive Err where
  | messageEmpty
  | messageTooLong
  | messageTitleTooLong
  | messageURLTooLong
  | messageURLTitleTooLong
  | emptyURL
  | invalidPriority
  | missingEmergencyParameter
  | invalidDeviceName
  | missingAttachment
  | messageAttachmentTooLarge
  | glancesMissingData
  | glancesTitleTooLong
  | glancesTextTooLong
  | glancesSubtextTooLong
  | glancesInvalidPercent
  | emptyToken
  | invalidToken
  | emptyRecipientToken
  | invalidRecipientToken
  deriving DecidableEq, Repr

/-! ### Regular expressions

The Go sources compile two anchored regular expressions:
tokenRegexp = recipientRegexp = [A-Za-z0-9] exactly 30 times, and
deviceNameRegexp = [A-Za-z0-9_-] between 1 and 25 times.  MatchString
on a fully anchored pattern is a whole-string match, embedded here as
decidable character predicates. -/

def isAlphaNum (c : Char) : Bool :=
  (('A' ≤ c && c ≤ 'Z') || ('a' ≤ c && c ≤ 'z') || ('0' ≤ c && c ≤ '9'))

def isDeviceChar (c : Char) : Bool :=
  isAlphaNum c || c = '_' || c = '-'

/-- Whole-string match of tokenRegexp (and recipientRegexp). -/
def tokenMatch (s : String) : Bool :=
  s.length = 30 && s.toList.all isAlphaNum

/-- Whole-string match of deviceNameRegexp on a list of characters. -/
def deviceNameMatchL (cs : List Char) : Bool :=
  1 ≤ cs.length && cs.length ≤ 25 && cs.all isDeviceChar

/-- Whole-string match of deviceNameRegexp. -/
def deviceNameMatch (s : String) : Bool :=
  deviceNameMatchL s.toList

/-- Embedding of Go strings.Split(s, ",") on the character list: splits at
every comma, keeping empty segments, and yields one segment for an input
without commas. -/
def splitComma : List Char → List (List Char)
  | [] => [[]]
  | c :: rest =>
    match splitComma rest with
    | [] => if c = ',' then [[], []] else [[c]]
    | h :: t => if c = ',' then [] :: h :: t else (c :: h) :: t

/-- The comma separated device list check of the current validators:
strings.Split on the comma followed by deviceNameRegexp.MatchString on
every element. -/
def deviceListOK (s : String) : Bool :=
  (splitComma s.toList).all deviceNameMatchL

/-! ### Message (current revision of src/message.go, partly modelled) -/

/-- The Message structure of the current message.go: the attachment is an
in-memory reader (modelled as an optional byte list); monospace is part
of the wire-field list of the spec. -/
structure Message where
  message : String
  title : String := ""
  priority : Int := 0
  url : String := ""
  urlTitle : String := ""
  timestamp : Int := 0
  /-- time.Duration in nanoseconds. -/
  retry : Int := 0
  /-- time.Duration in nanoseconds. -/
  expire : Int := 0
  callbackURL : String := ""
  deviceName : String := ""
  sound : String := ""
  html : Bool := false
  monospace : Bool := false
  attachment : Option (List Nat) := none
  deriving DecidableEq, Repr

/-- Modelled from the spec: the validate method of the current
message.go, which is missing from src (only its tests are present, in
src/unnamed/part_000).  Per the spec, the length checks count Unicode
code points (utf8.RuneCountInString; Lean String.length counts
characters, i.e. code points) and the device-name filter is a comma
separated list of names each matching deviceNameRegexp — the test suite
in src/unnamed/part_000 checks exactly these two behaviours.  The check
order and every other branch follow src/message.go lines 49-112
verbatim (empty body, body length, title length, URL length, URL-title
length, URL-title without URL, priority range, emergency completeness
with the nonzero tests Retry == 0 and Expire == 0, device name). -/
def Message.validate (m : Message) : Option Err :=
  if m.message = "" then some .messageEmpty
  else if m.message.length > MessageMaxLength then some .messageTooLong
  else if m.title.length > MessageTitleMaxLength then some .messageTitleTooLong
  else if m.url.length > MessageURLMaxLength then some .messageURLTooLong
  else if m.urlTitle.length > MessageURLTitleMaxLength then some .messageURLTitleTooLong
  else if m.url = "" ∧ m.urlTitle ≠ "" then some .emptyURL
  else if m.priority > PriorityEmergency ∨ m.priority < PriorityLowest then some .invalidPriority
  else if m.priority = PriorityEmergency ∧ (m.retry = 0 ∨ m.expire = 0) then
    some .missingEmergencyParameter
  else if m.deviceName ≠ "" ∧ ¬ deviceListOK m.deviceName then some .invalidDeviceName
  else none

/-! ### Glance (src/glances.go, second revision: type Glance) -/

/-- The Glance structure of src/glances.go (plain fields revision). -/
structure Glance where
  title : String := ""
  text : String := ""
  subtext : String := ""
  count : Int := 0
  percent : Int := 0
  deviceName : String := ""
  deriving DecidableEq, Repr

/-- Translation of Glance.validate, src/glances.go lines 173-201: the
missing-data check, the three rune-counted length checks, the percent
range check and the comma separated device-name check, in that order. -/
def Glance.validate (g : Glance) : Option Err :=
  if g.title = "" ∧ g.text = "" ∧ g.subtext = "" ∧ g.count = 0 ∧ g.percent = 0 then
    some .glancesMissingData
  else if g.title.length > GlancesMessageMaxTitleLength then some .glancesTitleTooLong
  else if g.text.length > GlancesMessageMaxTextLength then some .glancesTextTooLong
  else if g.subtext.length > GlancesMessageMaxSubtextLength then some .glancesSubtextTooLong
  else if g.percent < 0 ∨ g.percent > 100 then some .glancesInvalidPercent
  else if g.deviceName ≠ "" ∧ ¬ deviceListOK g.deviceName then some .invalidDeviceName
  else none

/-! ### Duration formatting

toMap renders Retry and Expire with
strconv.FormatFloat(d.Seconds(), 'f', -1, 64): decimal notation, no
exponent, and the smallest number of digits that represents the value.
time.Duration counts nanoseconds, so Seconds() is the rational ns/1e9,
whose decimal expansion is finite (at most nine fractional digits).
The embedding renders that exact expansion with trailing zeros
stripped, which agrees with the Go code whenever the float64 value of
ns/1e9 is exact (in particular for all whole-second durations of the
claims). -/

/-- Drop trailing zero characters of a digit string. -/
def stripTrailingZeros (s : String) : String :=
  String.mk ((s.toList.reverse.dropWhile (· = '0')).reverse)

/-- Left-pad a digit string with zeros up to nine digits. -/
def padLeft9 (s : String) : String :=
  String.mk (List.replicate (9 - s.length) '0') ++ s

/-- Embedding of strconv.FormatFloat(Duration(ns).Seconds(), 'f', -1, 64)
as used by Message.toMap for the retry and expire fields. -/
def formatSeconds (ns : Int) : String :=
  let sign := if ns < 0 then "-" else ""
  let a := ns.natAbs
  let intPart := a / 1000000000
  let frac := a % 1000000000
  if frac = 0 then sign ++ toString intPart
  else sign ++ toString intPart ++ "." ++ stripTrailingZeros (padLeft9 (toString frac))

/-! ### The field map (current toMap, modelled from the spec)

Go builds map[string]string values; the embedding uses association
lists (insertion order is irrelevant to the claims, which only look at
the key set and at lookups). -/

/-- Modelled from the spec: the toMap method of the current message.go
(missing from src).  Required fields message and priority (priority
always emitted, strconv.Itoa), then every optional field whose value is
non-default under its fixed wire name, with monospace in the wire-field
list as in spec section 4.3 and 6; retry and expire (FormatFloat of
Seconds) plus the optional callback only under emergency priority,
exactly as in the toMap of src/message.go lines 115-162 (which differs
only in carrying an attachment_path entry for its path-based attachment
representation, replaced in the current revision by the reader passed
to multipartRequest). -/
def Message.toMap (m : Message) : List (String × String) :=
  [("message", m.message), ("priority", toString m.priority)]
  ++ (if m.title ≠ "" then [("title", m.title)] else [])
  ++ (if m.url ≠ "" then [("url", m.url)] else [])
  ++ (if m.urlTitle ≠ "" then [("url_title", m.urlTitle)] else [])
  ++ (if m.sound ≠ "" then [("sound", m.sound)] else [])
  ++ (if m.deviceName ≠ "" then [("device", m.deviceName)] else [])
  ++ (if m.timestamp ≠ 0 then [("timestamp", toString m.timestamp)] else [])
  ++ (if m.html then [("html", "1")] else [])
  ++ (if m.monospace then [("monospace", "1")] else [])
  ++ (if m.priority = PriorityEmergency then
        [("retry", formatSeconds m.retry), ("expire", formatSeconds m.expire)]
        ++ (if m.callbackURL ≠ "" then [("callback", m.callbackURL)] else [])
      else [])

/-! ### Identities (src/pushover.go) -/

/-- The application, holding the API token. -/
structure App where
  token : String
  deriving DecidableEq, Repr

/-- Translation of Pushover.validate: empty token, then tokenRegexp. -/
def App.validate (p : App) : Option Err :=
  if p.token = "" then some .emptyToken
  else if ¬ tokenMatch p.token then some .invalidToken
  else none

/-- A recipient, holding the user token. -/
structure Recipient where
  token : String
  deriving DecidableEq, Repr

/-- Translation of Recipient.validate: empty token, then
recipientRegexp. -/
def Recipient.validate (u : Recipient) : Option Err :=
  if u.token = "" then some .emptyRecipientToken
  else if ¬ tokenMatch u.token then some .invalidRecipientToken
  else none

/-- Translation of Pushover.encodeRequest (map revision,
src/unnamed/part_002 lines 145-210 and src/pushover.go second revision):
validate the app token, the recipient token and the message in that
order, short-circuiting on the first failure, then return the field map
of toMap extended with the token and user entries. -/
def encodeRequest (p : App) (r : Recipient) (m : Message) :
    Except Err (List (String × String)) :=
  match p.validate with
  | some e => .error e
  | none =>
    match r.validate with
    | some e => .error e
    | none =>
      match m.validate with
      | some e => .error e
      | none => .ok ([("token", p.token), ("user", r.token)] ++ m.toMap)

/-! ### Wire requests (current request encoding, modelled) -/

/-- A wire request: either a url-encoded field list or a multipart body
holding file parts (form-field name, file name, content) next to
ordinary form fields. -/
inductive WireRequest where
  | urlEncoded (fields : List (String × String))
  | multipart (files : List (String × String × List Nat)) (fields : List (String × String))
  deriving DecidableEq, Repr

/-- Modelled from the spec: the multipartRequest method of the current
message.go (missing from src; its test is TestMultipartRequest in
src/unnamed/part_000).  A missing attachment is an error distinct from
an oversized one; the single file part uses the fixed form-field name
"attachment" and the fixed file name "attachment" (asserted by the
test), and the same field map travels as ordinary form fields. -/
def Message.multipartRequest (m : Message) (pToken rToken : String) :
    Except Err WireRequest :=
  match m.attachment with
  | none => .error .missingAttachment
  | some data =>
    if data.length > MessageMaxAttachmentByte then .error .messageAttachmentTooLarge
    else
      .ok (.multipart [("attachment", "attachment", data)]
        ([("token", pToken), ("user", rToken)] ++ m.toMap))

/-- Modelled from the spec: the request-encoding step of the current
message sending path (missing from src), which switches to the
multipart representation exactly when an attachment is present and
otherwise uses the simple url-encoded field list
(newURLEncodedRequest, called by src/glances.go). -/
def Message.wireRequest (m : Message) (pToken rToken : String) :
    Except Err WireRequest :=
  match m.attachment with
  | some _ => m.multipartRequest pToken rToken
  | none => .ok (.urlEncoded ([("token", pToken), ("user", rToken)] ++ m.toMap))

/-! ### strconv.Atoi (used by newLimit) -/

/-- Parse a nonempty run of ASCII decimal digits. -/
def parseDigits : List Char → Option Nat
  | [] => none
  | cs =>
    if cs.all (fun c => '0' ≤ c && c ≤ '9') then
      some (cs.foldl (fun n c => 10 * n + (c.toNat - 48)) 0)
    else none

/-- Embedding of strconv.Atoi: an optional sign followed by at least one
decimal digit and nothing else, rejected outside the 64-bit int range
(Go int is 64 bits on the supported platforms). -/
def atoi (s : String) : Option Int :=
  let cs := s.toList
  let signDigits : Bool × List Char :=
    match cs with
    | '-' :: rest => (true, rest)
    | '+' :: rest => (false, rest)
    | _ => (false, cs)
  match parseDigits signDigits.2 with
  | none => none
  | some n =>
    let v : Int := if signDigits.1 then -(n : Int) else (n : Int)
    if v < -(2 ^ 63) ∨ v ≥ 2 ^ 63 then none else some v

/-! ### Quota limits (src/pushover.go newLimit, lines 150-183) -/

/-- http.Header: a map from header names to lists of values, embedded as
an association list; lookup by exact (canonical) name as in the Go
source, which indexes the header map directly. -/
def HeaderList := List (String × List String)

/-- Direct indexing headers[name], replicating the presence check
h, ok := headers[header]. -/
def headerGet (h : HeaderList) (name : String) : Option (List String) :=
  (List.find? (fun p => p.1 = name) h).map Prod.snd

/-- The Limit structure: total and remaining allowance, and the next
reset time (time.Unix of the header value, kept as Unix seconds). -/
structure Limit where
  total : Int
  remaining : Int
  nextReset : Int
  deriving DecidableEq, Repr

/-- One round of the newLimit loop: the header must be present, must
hold exactly one value, and that value must parse with strconv.Atoi.
The Go code distinguishes ErrInvalidHeaders from the Atoi error; the
claims only depend on failure, so both collapse to none. -/
def parseLimitHeader (h : HeaderList) (name : String) : Option Int :=
  match headerGet h name with
  | none => none
  | some vs =>
    match vs with
    | [v] => atoi v
    | _ => none

/-- Translation of newLimit, src/pushover.go lines 150-183: the loop
walks X-Limit-App-Limit, X-Limit-App-Remaining and X-Limit-App-Reset in
that order; each must be present, singular and integral, else the whole
parse fails at the first offending header. -/
def newLimit (h : HeaderList) : Option Limit := do
  let t ← parseLimitHeader h "X-Limit-App-Limit"
  let r ← parseLimitHeader h "X-Limit-App-Remaining"
  let n ← parseLimitHeader h "X-Limit-App-Reset"
  some { total := t, remaining := r, nextReset := n }

/-! ### Responses and the transport orchestrator (src/request.go do) -/

/-- The Response shape of the API (status, request id, error list,
receipt, optional limit snapshot). -/
structure Response where
  status : Int
  id : String := ""
  errors : List String := []
  receipt : String := ""
  limit : Option Limit := none
  deriving DecidableEq, Repr

/-- The RecipientDetails shape. -/
structure RecipientDetails where
  status : Int
  group : Int := 0
  devices : List String := []
  requestID : String := ""
  errors : List String := []
  deriving DecidableEq, Repr

/-- The errors a library call can fail with at the transport layer. -/
inductive CallError where
  /-- ErrHTTPPushover, returned for every 5xx status. -/
  | httpPushover
  /-- A json.Decoder failure on the body. -/
  | jsonDecode
  /-- The decoded Errors value returned when status is not 1: the
  error-string list of the body, verbatim (possibly empty). -/
  | apiErrors (errs : List String)
  /-- ErrInvalidHeaders or the strconv error of newLimit (collapsed:
  the claims only depend on failure). -/
  | invalidHeaders
  /-- ErrInvalidRecipient, the generic error of GetRecipientDetails. -/
  | invalidRecipient
  deriving DecidableEq, Repr

/-- A server response: HTTP status code, raw body, headers. -/
structure HTTPResponse where
  statusCode : Nat
  body : String
  headers : HeaderList

/-- Translation of do (src/request.go lines 12-54) specialised to the
Response shape, for which the type assertion resType.(*Response)
succeeds.  The JSON decoder is passed in explicitly (the decode
argument stands for json.NewDecoder(resp.Body).Decode): a status code
of 500 or above short-circuits with ErrHTTPPushover before the body is
ever decoded; then a decode failure propagates; then status different
from 1 fails with the decoded Errors value; then, only when
returnHeaders is set (posting a notification), newLimit must succeed
and its snapshot is attached to the result. -/
def doResponse (decode : String → Except Unit Response)
    (resp : HTTPResponse) (returnHeaders : Bool) : Except CallError Response :=
  if resp.statusCode ≥ 500 then .error .httpPushover
  else
    match decode resp.body with
    | .error _ => .error .jsonDecode
    | .ok r =>
      if r.status ≠ 1 then .error (.apiErrors r.errors)
      else if returnHeaders then
        match newLimit resp.headers with
        | none => .error .invalidHeaders
        | some l => .ok { r with limit := some l }
      else .ok r

/-- Translation of do (src/request.go lines 12-54) for any decoded shape
other than Response: the type assertion fails and do returns before any
status check, so only the 5xx guard and the decode step remain. -/
def doOther {A : Type} (decode : String → Except Unit A)
    (resp : HTTPResponse) : Except CallError A :=
  if resp.statusCode ≥ 500 then .error .httpPushover
  else
    match decode resp.body with
    | .error _ => .error .jsonDecode
    | .ok a => .ok a

/-- Translation of the response handling of Pushover.GetRecipientDetails
(src/pushover.go lines 520-559): 5xx guard, JSON decode, and on status
different from 1 the generic ErrInvalidRecipient, not the decoded error
list. -/
def getRecipientDetails (decode : String → Except Unit RecipientDetails)
    (resp : HTTPResponse) : Except CallError RecipientDetails :=
  if resp.statusCode ≥ 500 then .error .httpPushover
  else
    match decode resp.body with
    | .error _ => .error .jsonDecode
    | .ok r =>
      if r.status ≠ 1 then .error .invalidRecipient
      else .ok r

/-! ### Receipt details decoding (src/pushover.go lines 395-506) -/

/-- The ReceiptDetails shape after the custom unmarshalling: the three
flags as booleans and the four at-instants as optional Unix seconds
(a nil *time.Time is none). -/
structure ReceiptDetails where
  status : Int := 0
  acknowledged : Bool := false
  acknowledgedBy : String := ""
  expired : Bool := false
  calledBack : Bool := false
  id : String := ""
  acknowledgedAt : Option Int := none
  lastDeliveredAt : Option Int := none
  expiresAt : Option Int := none
  calledBackAt : Option Int := none
  deriving DecidableEq, Repr

/-- Translation of the response handling of Pushover.GetReceiptDetails
(src/pushover.go lines 411-431): the body is JSON-decoded directly,
with no status-code guard of any kind before the decode. -/
def getReceiptDetails (decode : String → Except Unit ReceiptDetails)
    (resp : HTTPResponse) : Except CallError ReceiptDetails :=
  match decode resp.body with
  | .error _ => .error .jsonDecode
  | .ok d => .ok d

/-- Translation of intBool.UnmarshalJSON (src/pushover.go lines
490-506) applied to a wire integer: 0 maps to false, 1 maps to true,
any other integer is a decode error. -/
def intBoolUnmarshal (v : Int) : Except Unit Bool :=
  if v = 0 then .ok false
  else if v = 1 then .ok true
  else .error ()

/-- Translation of timestamp.UnmarshalJSON (src/pushover.go lines
473-485) applied to a wire integer: a positive value becomes the
instant time.Unix(i, 0) (kept as its Unix seconds, exactly, with no
drift), anything else leaves the timestamp absent. -/
def timestampUnmarshal (i : Int) : Option Int :=
  if i > 0 then some i else none

/-! ### Helper lemmas -/

/-- The message validator succeeds exactly when every rule of the chain
holds. -/
theorem message_validate_eq_none_iff (m : Message) :
    m.validate = none ↔
      (m.message ≠ "" ∧ m.message.length ≤ MessageMaxLength ∧
       m.title.length ≤ MessageTitleMaxLength ∧
       m.url.length ≤ MessageURLMaxLength ∧
       m.urlTitle.length ≤ MessageURLTitleMaxLength ∧
       (m.url = "" → m.urlTitle = "") ∧
       m.priority ≤ PriorityEmergency ∧ PriorityLowest ≤ m.priority ∧
       (m.priority = PriorityEmergency → m.retry ≠ 0 ∧ m.expire ≠ 0) ∧
       (m.deviceName ≠ "" → deviceListOK m.deviceName = true)) := by
  unfold Message.validate
  split_ifs with h1 h2 h3 h4 h5 h6 h7 h8 h9 <;> simp_all <;> omega

/-- The glance validator succeeds exactly when every rule of the chain
holds. -/
theorem glance_validate_eq_none_iff (g : Glance) :
    g.validate = none ↔
      (¬(g.title = "" ∧ g.text = "" ∧ g.subtext = "" ∧ g.count = 0 ∧ g.percent = 0) ∧
       g.title.length ≤ GlancesMessageMaxTitleLength ∧
       g.text.length ≤ GlancesMessageMaxTextLength ∧
       g.subtext.length ≤ GlancesMessageMaxSubtextLength ∧
       0 ≤ g.percent ∧ g.percent ≤ 100 ∧
       (g.deviceName ≠ "" → deviceListOK g.deviceName = true)) := by
  unfold Glance.validate
  split_ifs with h1 h2 h3 h4 h5 h6 <;> simp_all
  omega

/-! ### C1 -/

/-- C1: message and glance validation length checks count Unicode code
points, not bytes (Lean String.length counts characters, i.e. code
points, matching utf8.RuneCountInString): every body of at most 1024
code points passes validation when no other rule is violated, and a
body of 1025 code points fails with the too-long body error whatever
the other fields are; the analogous boundary law holds independently
for the title (250), the URL (512), the URL label (100), and each of
the three glance text fields (100). -/
theorem C1_length_boundaries :
    (∀ s : String, s ≠ "" → s.length ≤ MessageMaxLength →
      Message.validate { message := s } = none) ∧
    (∀ m : Message, m.message.length = MessageMaxLength + 1 →
      m.validate = some .messageTooLong) ∧
    (∀ s t : String, s ≠ "" → s.length ≤ MessageMaxLength →
      t.length ≤ MessageTitleMaxLength →
      Message.validate { message := s, title := t } = none) ∧
    (∀ m : Message, m.message ≠ "" → m.message.length ≤ MessageMaxLength →
      m.title.length = MessageTitleMaxLength + 1 →
      m.validate = some .messageTitleTooLong) ∧
    (∀ s u : String, s ≠ "" → s.length ≤ MessageMaxLength →
      u.length ≤ MessageURLMaxLength →
      Message.validate { message := s, url := u } = none) ∧
    (∀ m : Message, m.message ≠ "" → m.message.length ≤ MessageMaxLength →
      m.title.length ≤ MessageTitleMaxLength →
      m.url.length = MessageURLMaxLength + 1 →
      m.validate = some .messageURLTooLong) ∧
    (∀ s l : String, s ≠ "" → s.length ≤ MessageMaxLength →
      l.length ≤ MessageURLTitleMaxLength →
      Message.validate { message := s, url := "u", urlTitle := l } = none) ∧
    (∀ m : Message, m.message ≠ "" → m.message.length ≤ MessageMaxLength →
      m.title.length ≤ MessageTitleMaxLength →
      m.url.length ≤ MessageURLMaxLength →
      m.urlTitle.length = MessageURLTitleMaxLength + 1 →
      m.validate = some .messageURLTitleTooLong) ∧
    (∀ t : String, t ≠ "" → t.length ≤ GlancesMessageMaxTitleLength →
      Glance.validate { title := t } = none) ∧
    (∀ g : Glance, g.title.length = GlancesMessageMaxTitleLength + 1 →
      g.validate = some .glancesTitleTooLong) ∧
    (∀ t : String, t ≠ "" → t.length ≤ GlancesMessageMaxTextLength →
      Glance.validate { text := t } = none) ∧
    (∀ g : Glance, g.title.length ≤ GlancesMessageMaxTitleLength →
      g.text.length = GlancesMessageMaxTextLength + 1 →
      g.validate = some .glancesTextTooLong) ∧
    (∀ t : String, t ≠ "" → t.length ≤ GlancesMessageMaxSubtextLength →
      Glance.validate { subtext := t } = none) ∧
    (∀ g : Glance, g.title.length ≤ GlancesMessageMaxTitleLength →
      g.text.length ≤ GlancesMessageMaxTextLength →
      g.subtext.length = GlancesMessageMaxSubtextLength + 1 →
      g.validate = some .glancesSubtextTooLong) := by
  refine ⟨?_, ?_, ?_, ?_, ?_, ?_, ?_, ?_, ?_, ?_, ?_, ?_, ?_, ?_⟩
  · intro s h1 h2
    rw [message_validate_eq_none_iff]
    refine ⟨h1, h2, ?_⟩
    simp [MessageTitleMaxLength, MessageURLMaxLength, MessageURLTitleMaxLength,
      PriorityEmergency, PriorityLowest, deviceListOK]
  · intro m hlen
    unfold Message.validate
    split_ifs with h1 h2 <;> simp_all [MessageMaxLength]
  · intro s t h1 h2 h3
    rw [message_validate_eq_none_iff]
    refine ⟨h1, h2, h3, ?_⟩
    simp [MessageURLMaxLength, MessageURLTitleMaxLength, PriorityEmergency,
      PriorityLowest, deviceListOK]
  · intro m h1 h2 h3
    have c1 : ¬(m.message = "") := h1
    have c2 : ¬(m.message.length > MessageMaxLength) := by omega
    have c3 : m.title.length > MessageTitleMaxLength := by omega
    unfold Message.validate
    rw [if_neg c1, if_neg c2, if_pos c3]
  · intro s u h1 h2 h3
    rw [message_validate_eq_none_iff]
    refine ⟨h1, h2, ?_, h3, ?_⟩ <;>
      simp [MessageTitleMaxLength, MessageURLTitleMaxLength, PriorityEmergency,
        PriorityLowest, deviceListOK]
  · intro m h1 h2 h3 h4
    have c1 : ¬(m.message = "") := h1
    have c2 : ¬(m.message.length > MessageMaxLength) := by omega
    have c3 : ¬(m.title.length > MessageTitleMaxLength) := by omega
    have c4 : m.url.length > MessageURLMaxLength := by omega
    unfold Message.validate
    rw [if_neg c1, if_neg c2, if_neg c3, if_pos c4]
  · intro s l h1 h2 h3
    rw [message_validate_eq_none_iff]
    dsimp only
    exact ⟨h1, h2, by decide, by decide, h3, fun h => absurd h (by decide),
      by decide, by decide, fun h => absurd h (by decide), fun h => absurd rfl h⟩
  · intro m h1 h2 h3 h4 h5
    have c1 : ¬(m.message = "") := h1
    have c2 : ¬(m.message.length > MessageMaxLength) := by omega
    have c3 : ¬(m.title.length > MessageTitleMaxLength) := by omega
    have c4 : ¬(m.url.length > MessageURLMaxLength) := by omega
    have c5 : m.urlTitle.length > MessageURLTitleMaxLength := by omega
    unfold Message.validate
    rw [if_neg c1, if_neg c2, if_neg c3, if_neg c4, if_pos c5]
  · intro t h1 h2
    rw [glance_validate_eq_none_iff]
    refine ⟨?_, h2, ?_⟩ <;>
      simp_all [GlancesMessageMaxTextLength, GlancesMessageMaxSubtextLength]
  · intro g hlen
    have hne : g.title ≠ "" := by
      intro h
      rw [h, show ("" : String).length = 0 from rfl] at hlen
      omega
    have c1 : ¬(g.title = "" ∧ g.text = "" ∧ g.subtext = "" ∧ g.count = 0 ∧ g.percent = 0) :=
      fun h => hne h.1
    have c2 : g.title.length > GlancesMessageMaxTitleLength := by omega
    unfold Glance.validate
    rw [if_neg c1, if_pos c2]
  · intro t h1 h2
    rw [glance_validate_eq_none_iff]
    refine ⟨?_, ?_, h2, ?_⟩ <;>
      simp_all [GlancesMessageMaxTitleLength, GlancesMessageMaxSubtextLength]
  · intro g h1 hlen
    have hne : g.text ≠ "" := by
      intro h
      rw [h, show ("" : String).length = 0 from rfl] at hlen
      omega
    have c1 : ¬(g.title = "" ∧ g.text = "" ∧ g.subtext = "" ∧ g.count = 0 ∧ g.percent = 0) :=
      fun h => hne h.2.1
    have c2 : ¬(g.title.length > GlancesMessageMaxTitleLength) := by omega
    have c3 : g.text.length > GlancesMessageMaxTextLength := by omega
    unfold Glance.validate
    rw [if_neg c1, if_neg c2, if_pos c3]
  · intro t h1 h2
    rw [glance_validate_eq_none_iff]
    refine ⟨?_, ?_, ?_, h2, ?_⟩ <;>
      simp_all [GlancesMessageMaxTitleLength, GlancesMessageMaxTextLength]
  · intro g h1 h2 hlen
    have hne : g.subtext ≠ "" := by
      intro h
      rw [h, show ("" : String).length = 0 from rfl] at hlen
      omega
    have c1 : ¬(g.title = "" ∧ g.text = "" ∧ g.subtext = "" ∧ g.count = 0 ∧ g.percent = 0) :=
      fun h => hne h.2.2.1
    have c2 : ¬(g.title.length > GlancesMessageMaxTitleLength) := by omega
    have c3 : ¬(g.text.length > GlancesMessageMaxTextLength) := by omega
    have c4 : g.subtext.length > GlancesMessageMaxSubtextLength := by omega
    unfold Glance.validate
    rw [if_neg c1, if_neg c2, if_neg c3, if_pos c4]

/-- A 1024 code-point body made of two-byte characters. -/
def multiByteBody : String := String.mk (List.replicate MessageMaxLength 'é')

/-- A 1025 code-point body made of two-byte characters. -/
def multiByteBodyLong : String := String.mk (List.replicate (MessageMaxLength + 1) 'é')

set_option maxRecDepth 8192 in
/-- Witness for C1: the boundary laws evaluated at concrete multi-byte
inputs, a 1024 and a 1025 code-point body and a 100 and a 101
code-point glance title, all made of the two-byte character é. -/
theorem C1_length_boundaries_witness :
    (multiByteBody ≠ "" ∧ multiByteBody.length ≤ MessageMaxLength ∧
      Message.validate { message := multiByteBody } = none) ∧
    (multiByteBodyLong.length = MessageMaxLength + 1 ∧
      Message.validate { message := multiByteBodyLong } = some .messageTooLong) ∧
    (Glance.validate { title := String.mk (List.replicate 100 'é') } = none) ∧
    (Glance.validate { title := String.mk (List.replicate 101 'é') } = some .glancesTitleTooLong) := by
  have h1 : multiByteBody ≠ "" := by decide
  have h2 : multiByteBody.length ≤ MessageMaxLength := by decide
  have h3 : multiByteBodyLong.length = MessageMaxLength + 1 := by decide
  have g1 : String.mk (List.replicate 100 'é') ≠ "" := by decide
  have g2 : (String.mk (List.replicate 100 'é')).length ≤ GlancesMessageMaxTitleLength := by
    decide
  have g3 : ({ title := String.mk (List.replicate 101 'é') } : Glance).title.length =
      GlancesMessageMaxTitleLength + 1 := by decide
  exact ⟨⟨h1, h2, C1_length_boundaries.1 _ h1 h2⟩,
    ⟨h3, C1_length_boundaries.2.1 _ h3⟩,
    C1_length_boundaries.2.2.2.2.2.2.2.2.1 _ g1 g2,
    C1_length_boundaries.2.2.2.2.2.2.2.2.2.1 _ g3⟩

/-! ### C7 -/

/-- C7: receipt-details decoding maps the wire flag integers to booleans
with 0 to false and 1 to true and fails with a decode error for every
other integer, and an at-timestamp of 0 decodes to an absent instant
(not the Unix epoch) while a positive integer such as 1424305421
decodes to exactly that Unix instant with no drift. -/
theorem C7_receipt_wire_decoding :
    intBoolUnmarshal 0 = .ok false ∧
    intBoolUnmarshal 1 = .ok true ∧
    (∀ v : Int, v ≠ 0 → v ≠ 1 → intBoolUnmarshal v = .error ()) ∧
    timestampUnmarshal 0 = none ∧
    timestampUnmarshal 1424305421 = some 1424305421 ∧
    (∀ i : Int, 0 < i → timestampUnmarshal i = some i) := by
  refine ⟨rfl, rfl, ?_, rfl, rfl, ?_⟩
  · intro v h0 h1
    unfold intBoolUnmarshal
    rw [if_neg h0, if_neg h1]
  · intro i hi
    unfold timestampUnmarshal
    rw [if_pos hi]

/-- Witness for C7: the quantified parts applied at the flag value 7 and
the instant 1424305421. -/
theorem C7_receipt_wire_decoding_witness :
    intBoolUnmarshal 7 = .error () ∧ timestampUnmarshal 1424305421 = some 1424305421 :=
  ⟨C7_receipt_wire_decoding.2.2.1 7 (by decide) (by decide),
   C7_receipt_wire_decoding.2.2.2.2.2 1424305421 (by decide)⟩

/-! ### C10 -/

/-- The canonical emergency message of the C10 analysis: a plain valid
message where only the two durations vary. -/
def emergencyMsg (re ex : Int) : Message :=
  { message := "Test message", priority := PriorityEmergency, retry := re, expire := ex }

/-- The application token of the test suite. -/
def fakeApp : App := { token := "uQiRzpo4DXghDmr9QzzfQu27cmVRsG" }

/-- The recipient token of the test suite. -/
def fakeRecipient : Recipient := { token := "gznej3rKEVAvPUxu9vvNnqpmZpokzF" }

/-- C10: the emergency completeness check only tests the two durations
for being nonzero, not positive: the missing-emergency-parameter error
fires exactly when Retry or Expire is exactly zero, so any nonzero
durations — negative ones included — pass, and the encoder emits a
negative retry literally, Retry of minus 60 seconds giving the field
value "-60". -/
theorem C10_emergency_nonzero_only :
    (∀ re ex : Int,
      (emergencyMsg re ex).validate = some .missingEmergencyParameter ↔ (re = 0 ∨ ex = 0)) ∧
    (∀ re ex : Int, re ≠ 0 → ex ≠ 0 → (emergencyMsg re ex).validate = none) ∧
    (∃ fields,
      encodeRequest fakeApp fakeRecipient
          (emergencyMsg (-60 * 1000000000) (3600 * 1000000000)) = .ok fields ∧
      fields.lookup "retry" = some "-60" ∧ fields.lookup "expire" = some "3600") := by
  refine ⟨?_, ?_, ?_⟩
  · intro re ex
    unfold emergencyMsg Message.validate
    dsimp only
    rw [if_neg (by decide), if_neg (by decide), if_neg (by decide), if_neg (by decide),
      if_neg (by decide), if_neg (by decide), if_neg (by decide)]
    by_cases h : re = 0 ∨ ex = 0
    · rw [if_pos ⟨rfl, h⟩]
      simp [h]
    · rw [if_neg (fun hc => h hc.2), if_neg (by decide)]
      simp [h]
  · intro re ex hre hex
    unfold emergencyMsg Message.validate
    dsimp only
    rw [if_neg (by decide), if_neg (by decide), if_neg (by decide), if_neg (by decide),
      if_neg (by decide), if_neg (by decide), if_neg (by decide),
      if_neg (fun hc => hc.2.elim hre hex), if_neg (by decide)]
  · exact ⟨_, rfl, rfl, rfl⟩

/-- Witness for C10: the nonzero law applied at a negative retry of
minus 60 seconds, and the zero law at a zero retry. -/
theorem C10_emergency_nonzero_only_witness :
    (emergencyMsg (-60 * 1000000000) (3600 * 1000000000)).validate = none ∧
    ((emergencyMsg 0 3600000000000).validate = some .missingEmergencyParameter ↔
      ((0 : Int) = 0 ∨ (3600000000000 : Int) = 0)) :=
  ⟨C10_emergency_nonzero_only.2.1 _ _ (by decide) (by decide),
   C10_emergency_nonzero_only.1 0 3600000000000⟩

/-! ### C2 -/

/-- Keys contributed by a conditionally emitted field of toMap. -/
theorem mem_keys_cond {c : Prop} [Decidable c] {k a v : String} :
    k ∈ (if c then [(a, v)] else []).map Prod.fst ↔ (k = a ∧ c) := by
  split <;> simp_all

/-- Keys contributed by the emergency block of toMap. -/
theorem mem_keys_emergency {c c2 : Prop} [Decidable c] [Decidable c2]
    {k r rv e ev cb cv : String} :
    k ∈ ((if c then ([(r, rv), (e, ev)] ++ if c2 then [(cb, cv)] else [])
        else []).map Prod.fst)
      ↔ (c ∧ (k = r ∨ k = e ∨ (k = cb ∧ c2))) := by
  split_ifs <;> simp_all

/-- The key set of the field map built by toMap. -/
theorem Message.mem_toMap_keys (m : Message) (k : String) :
    k ∈ m.toMap.map Prod.fst ↔
      (k = "message" ∨ k = "priority" ∨
       (k = "title" ∧ m.title ≠ "") ∨
       (k = "url" ∧ m.url ≠ "") ∨
       (k = "url_title" ∧ m.urlTitle ≠ "") ∨
       (k = "sound" ∧ m.sound ≠ "") ∨
       (k = "device" ∧ m.deviceName ≠ "") ∨
       (k = "timestamp" ∧ m.timestamp ≠ 0) ∨
       (k = "html" ∧ m.html = true) ∨
       (k = "monospace" ∧ m.monospace = true) ∨
       (m.priority = PriorityEmergency ∧
         (k = "retry" ∨ k = "expire" ∨ (k = "callback" ∧ m.callbackURL ≠ "")))) := by
  unfold Message.toMap
  simp only [List.map_append, List.mem_append, mem_keys_cond, mem_keys_emergency,
    List.map_cons, List.map_nil, List.mem_cons, List.not_mem_nil, List.mem_singleton,
    or_assoc, false_or]

/-- The field map returned by a successful encodeRequest: the toMap
fields next to the token and user entries. -/
def encodedFields (p : App) (r : Recipient) (m : Message) : List (String × String) :=
  [("token", p.token), ("user", r.token)] ++ m.toMap

/-- C2: for every notification that passes validation (with valid app
and recipient tokens) the encoder succeeds and produces a field map
holding exactly the required fields token, user, message and priority —
priority always emitted, the default level included — plus every
optional field whose value is non-default under its fixed wire name
(title, url, url_title, sound, device, timestamp, html, monospace),
with retry, expire and the optional callback governed by the
emergency-priority rule: no spurious entry for any unset optional
field, and no missing required field. -/
theorem C2_encoder_exact_fields
    (p : App) (r : Recipient) (m : Message)
    (hp : p.validate = none) (hr : r.validate = none) (hm : m.validate = none) :
    encodeRequest p r m = .ok (encodedFields p r m) ∧
    ("token", p.token) ∈ encodedFields p r m ∧
    ("user", r.token) ∈ encodedFields p r m ∧
    ("message", m.message) ∈ encodedFields p r m ∧
    ("priority", toString m.priority) ∈ encodedFields p r m ∧
    (∀ k : String, k ∈ (encodedFields p r m).map Prod.fst ↔
      (k = "token" ∨ k = "user" ∨ k = "message" ∨ k = "priority" ∨
       (k = "title" ∧ m.title ≠ "") ∨
       (k = "url" ∧ m.url ≠ "") ∨
       (k = "url_title" ∧ m.urlTitle ≠ "") ∨
       (k = "sound" ∧ m.sound ≠ "") ∨
       (k = "device" ∧ m.deviceName ≠ "") ∨
       (k = "timestamp" ∧ m.timestamp ≠ 0) ∨
       (k = "html" ∧ m.html = true) ∨
       (k = "monospace" ∧ m.monospace = true) ∨
       (m.priority = PriorityEmergency ∧
         (k = "retry" ∨ k = "expire" ∨ (k = "callback" ∧ m.callbackURL ≠ ""))))) := by
  refine ⟨?_, ?_, ?_, ?_, ?_, ?_⟩
  · unfold encodeRequest
    rw [hp, hr, hm]
    rfl
  · simp [encodedFields]
  · simp [encodedFields]
  · unfold encodedFields Message.toMap
    simp
  · unfold encodedFields Message.toMap
    simp
  · intro k
    unfold encodedFields
    simp only [List.map_append, List.mem_append, List.map_cons, List.map_nil,
      List.mem_cons, List.not_mem_nil, Message.mem_toMap_keys m k, or_assoc, false_or]

/-- The full-featured message of the test suite (TestEncodeRequest). -/
def fakeMessage : Message :=
  { message := "My awesome message", title := "My title", priority := PriorityEmergency,
    url := "http://google.com", urlTitle := "Google", timestamp := 1727000000,
    retry := 60 * 1000000000, expire := 3600 * 1000000000,
    deviceName := "SuperDevice", callbackURL := "http://yourapp.com/callback",
    sound := "cosmic", html := true }

/-- Witness for C2: the encoder law applied to the full-featured test
message and the valid test tokens, with the key-set characterization
read off at the keys html (set) and monospace (unset). -/
theorem C2_encoder_exact_fields_witness :
    (fakeApp.validate = none ∧ fakeRecipient.validate = none ∧
      fakeMessage.validate = none) ∧
    encodeRequest fakeApp fakeRecipient fakeMessage =
      .ok (encodedFields fakeApp fakeRecipient fakeMessage) ∧
    ("html" ∈ (encodedFields fakeApp fakeRecipient fakeMessage).map Prod.fst ↔
      ("html" = "token" ∨ "html" = "user" ∨ "html" = "message" ∨ "html" = "priority" ∨
       ("html" = "title" ∧ fakeMessage.title ≠ "") ∨
       ("html" = "url" ∧ fakeMessage.url ≠ "") ∨
       ("html" = "url_title" ∧ fakeMessage.urlTitle ≠ "") ∨
       ("html" = "sound" ∧ fakeMessage.sound ≠ "") ∨
       ("html" = "device" ∧ fakeMessage.deviceName ≠ "") ∨
       ("html" = "timestamp" ∧ fakeMessage.timestamp ≠ 0) ∨
       ("html" = "html" ∧ fakeMessage.html = true) ∨
       ("html" = "monospace" ∧ fakeMessage.monospace = true) ∨
       (fakeMessage.priority = PriorityEmergency ∧
         ("html" = "retry" ∨ "html" = "expire" ∨
          ("html" = "callback" ∧ fakeMessage.callbackURL ≠ ""))))) :=
  ⟨⟨by decide, by decide, by decide⟩,
   (C2_encoder_exact_fields fakeApp fakeRecipient fakeMessage
      (by decide) (by decide) (by decide)).1,
   (C2_encoder_exact_fields fakeApp fakeRecipient fakeMessage
      (by decide) (by decide) (by decide)).2.2.2.2.2 "html"⟩

/-! ### C3 -/

/-- encodeRequest succeeds exactly when the three validations pass, and
then returns the encodedFields map. -/
theorem encodeRequest_ok_iff (p : App) (r : Recipient) (m : Message)
    (fields : List (String × String)) :
    encodeRequest p r m = .ok fields ↔
      (p.validate = none ∧ r.validate = none ∧ m.validate = none ∧
       fields = encodedFields p r m) := by
  unfold encodeRequest encodedFields
  cases hp : p.validate <;> cases hr : r.validate <;> cases hm : m.validate <;>
    simp [eq_comm]

/-- Whole-second durations render as the plain decimal integer with no
trailing zeros: k seconds, i.e. k·10⁹ nanoseconds, format as the
decimal representation of k. -/
theorem formatSeconds_whole (k : Int) : formatSeconds (k * 1000000000) = toString k := by
  simp only [formatSeconds]
  have habs : (k * 1000000000).natAbs = k.natAbs * 1000000000 := by
    rw [Int.natAbs_mul]
    rfl
  rw [habs]
  have hmod : k.natAbs * 1000000000 % 1000000000 = 0 := by omega
  have hdiv : k.natAbs * 1000000000 / 1000000000 = k.natAbs := by omega
  rw [hmod, hdiv, if_pos rfl]
  rcases k with m | m
  · rw [if_neg (show ¬(Int.ofNat m * 1000000000 < 0) from
      not_lt.mpr (mul_nonneg (Int.ofNat_nonneg m) (by norm_num)))]
    rfl
  · rw [if_pos (mul_neg_of_neg_of_pos (Int.negSucc_lt_zero m)
      (by norm_num : (0 : Int) < 1000000000))]
    rfl

/-- The minimal emergency notification of the C3 end-to-end check. -/
def hiMessage : Message :=
  { message := "hi", priority := PriorityEmergency,
    retry := 60 * 1000000000, expire := 3600 * 1000000000 }

/-- C3: a successful encoding carries the retry and expire fields if and
only if the message priority is the emergency level; whole-second
durations are formatted as seconds with no trailing zeros; and encoding
the notification with body "hi", emergency priority, retry 60s and
expire 3600s under the valid 30-character test tokens yields priority
"2", retry "60", expire "3600", and no callback field since no callback
URL was supplied. -/
theorem C3_retry_expire_iff_emergency :
    (∀ (p : App) (r : Recipient) (m : Message) (fields : List (String × String)),
      encodeRequest p r m = .ok fields →
      (("retry" ∈ fields.map Prod.fst ↔ m.priority = PriorityEmergency) ∧
       ("expire" ∈ fields.map Prod.fst ↔ m.priority = PriorityEmergency))) ∧
    (∀ k : Int, formatSeconds (k * 1000000000) = toString k) ∧
    (encodeRequest fakeApp fakeRecipient hiMessage =
        .ok (encodedFields fakeApp fakeRecipient hiMessage) ∧
      (encodedFields fakeApp fakeRecipient hiMessage).lookup "priority" = some "2" ∧
      (encodedFields fakeApp fakeRecipient hiMessage).lookup "retry" = some "60" ∧
      (encodedFields fakeApp fakeRecipient hiMessage).lookup "expire" = some "3600" ∧
      "callback" ∉ (encodedFields fakeApp fakeRecipient hiMessage).map Prod.fst) := by
  refine ⟨?_, formatSeconds_whole, rfl, rfl, rfl, rfl, by decide⟩
  intro p r m fields h
  rw [encodeRequest_ok_iff] at h
  obtain ⟨hp, hr, hm, rfl⟩ := h
  constructor <;>
  · unfold encodedFields
    simp only [List.map_append, List.map_cons, List.map_nil, List.mem_append,
      List.mem_cons, List.not_mem_nil, Message.mem_toMap_keys, or_assoc, false_or]
    simp

/-- Witness for C3: the iff applied to the concrete encoding of the
emergency test message, whose priority is the emergency level. -/
theorem C3_retry_expire_iff_emergency_witness :
    ("retry" ∈ (encodedFields fakeApp fakeRecipient hiMessage).map Prod.fst ↔
      hiMessage.priority = PriorityEmergency) ∧
    ("expire" ∈ (encodedFields fakeApp fakeRecipient hiMessage).map Prod.fst ↔
      hiMessage.priority = PriorityEmergency) :=
  C3_retry_expire_iff_emergency.1 fakeApp fakeRecipient hiMessage
    (encodedFields fakeApp fakeRecipient hiMessage) rfl

/-! ### C4 -/

/-- The three quota header names walked by newLimit, in loop order. -/
def limitHeaderNames : List String :=
  ["X-Limit-App-Limit", "X-Limit-App-Remaining", "X-Limit-App-Reset"]

/-- A failed parse of any one of the three quota headers fails the whole
newLimit parse. -/
theorem newLimit_eq_none (h : HeaderList) (name : String)
    (hmem : name ∈ limitHeaderNames) (hp : parseLimitHeader h name = none) :
    newLimit h = none := by
  have hcases : name = "X-Limit-App-Limit" ∨ name = "X-Limit-App-Remaining" ∨
      name = "X-Limit-App-Reset" := by simpa [limitHeaderNames] using hmem
  rcases hcases with rfl | rfl | rfl
  · simp [newLimit, hp]
  · cases hA : parseLimitHeader h "X-Limit-App-Limit" <;> simp [newLimit, hA, hp]
  · cases hA : parseLimitHeader h "X-Limit-App-Limit" <;>
      cases hB : parseLimitHeader h "X-Limit-App-Remaining" <;>
        simp [newLimit, hA, hB, hp]

/-- C4: quota extraction is all-or-nothing and happens only for
notification-posting calls: when the JSON body decoded successfully
with status 1, a posting call still fails whenever any one of the three
quota headers is missing, non-singular or non-integral, and succeeds
with the quota snapshot attached when all three are present, singular
and integral; a non-posting call ignores the headers entirely. -/
theorem C4_quota_all_or_nothing :
    (∀ (resp : HTTPResponse) (decode : String → Except Unit Response) (r : Response),
      resp.statusCode < 500 → decode resp.body = .ok r → r.status = 1 →
      newLimit resp.headers = none →
      doResponse decode resp true = .error .invalidHeaders) ∧
    (∀ (resp : HTTPResponse) (decode : String → Except Unit Response) (r : Response)
      (l : Limit),
      resp.statusCode < 500 → decode resp.body = .ok r → r.status = 1 →
      newLimit resp.headers = some l →
      doResponse decode resp true = .ok { r with limit := some l }) ∧
    (∀ (resp : HTTPResponse) (decode : String → Except Unit Response) (r : Response),
      resp.statusCode < 500 → decode resp.body = .ok r → r.status = 1 →
      doResponse decode resp false = .ok r) ∧
    (∀ (h : HeaderList) (name : String), name ∈ limitHeaderNames →
      headerGet h name = none → newLimit h = none) ∧
    (∀ (h : HeaderList) (name : String) (vs : List String), name ∈ limitHeaderNames →
      headerGet h name = some vs → vs.length ≠ 1 → newLimit h = none) ∧
    (∀ (h : HeaderList) (name : String) (v : String), name ∈ limitHeaderNames →
      headerGet h name = some [v] → atoi v = none → newLimit h = none) := by
  refine ⟨?_, ?_, ?_, ?_, ?_, ?_⟩
  · intro resp decode r h5 hdec hst hlim
    simp [doResponse, hdec, hst, hlim, show ¬(500 ≤ resp.statusCode) from by omega]
  · intro resp decode r l h5 hdec hst hlim
    simp [doResponse, hdec, hst, hlim, show ¬(500 ≤ resp.statusCode) from by omega]
  · intro resp decode r h5 hdec hst
    simp [doResponse, hdec, hst, show ¬(500 ≤ resp.statusCode) from by omega]
  · intro h name hmem hget
    exact newLimit_eq_none h name hmem (by simp [parseLimitHeader, hget])
  · intro h name vs hmem hget hlen
    refine newLimit_eq_none h name hmem ?_
    rcases vs with _ | ⟨v, _ | ⟨w, t⟩⟩
    · unfold parseLimitHeader
      rw [hget]
    · simp at hlen
    · unfold parseLimitHeader
      rw [hget]
  · intro h name v hmem hget hatoi
    refine newLimit_eq_none h name hmem ?_
    unfold parseLimitHeader
    rw [hget]
    exact hatoi

/-- The response headers of the test server (TestValidPostForm). -/
def fullHeaders : HeaderList :=
  [("X-Limit-App-Limit", ["7500"]), ("X-Limit-App-Remaining", ["6000"]),
   ("X-Limit-App-Reset", ["1393653600"])]

/-- The same headers with the remaining-allowance header missing. -/
def missingHeaders : HeaderList :=
  [("X-Limit-App-Limit", ["7500"]), ("X-Limit-App-Reset", ["1393653600"])]

/-- Witness for C4: a posting call against the test headers succeeds
with the quota snapshot 7500/6000/1393653600 attached, and the same
call fails when the remaining-allowance header is missing, both with
status 1 bodies. -/
theorem C4_quota_all_or_nothing_witness :
    doResponse (fun _ => .ok { status := 1, id := "e460545a8b333d0da2f3602aff3133d6" })
        { statusCode := 200, body := "body", headers := fullHeaders } true =
      .ok { status := 1, id := "e460545a8b333d0da2f3602aff3133d6",
            limit := some { total := 7500, remaining := 6000, nextReset := 1393653600 } } ∧
    doResponse (fun _ => .ok { status := 1, id := "e460545a8b333d0da2f3602aff3133d6" })
        { statusCode := 200, body := "body", headers := missingHeaders } true =
      .error .invalidHeaders :=
  ⟨C4_quota_all_or_nothing.2.1
      { statusCode := 200, body := "body", headers := fullHeaders }
      (fun _ => .ok { status := 1, id := "e460545a8b333d0da2f3602aff3133d6" })
      { status := 1, id := "e460545a8b333d0da2f3602aff3133d6" }
      { total := 7500, remaining := 6000, nextReset := 1393653600 }
      (by decide) rfl rfl (by decide),
   C4_quota_all_or_nothing.1
      { statusCode := 200, body := "body", headers := missingHeaders }
      (fun _ => .ok { status := 1, id := "e460545a8b333d0da2f3602aff3133d6" })
      { status := 1, id := "e460545a8b333d0da2f3602aff3133d6" }
      (by decide) rfl rfl (by decide)⟩

/-! ### C5 -/

/-- C5 (amended): every call that goes through do — posting a
notification, the do-based recipient-details and cancel calls, and the
glance calls — fails with the opaque ErrHTTPPushover on any 5xx status
code whatever the JSON decoder would have produced, so the body is
never decoded; the receipt-details call, however, decodes the body
regardless of the status class (see the counterexample). -/
theorem C5_do_5xx_transport_failure :
    ∀ (resp : HTTPResponse) (b : Bool)
      (decodeR : String → Except Unit Response)
      (decodeD : String → Except Unit RecipientDetails),
      500 ≤ resp.statusCode →
      doResponse decodeR resp b = .error .httpPushover ∧
      doOther decodeD resp = .error .httpPushover ∧
      getRecipientDetails decodeD resp = .error .httpPushover := by
  intro resp b dR dD h
  refine ⟨?_, ?_, ?_⟩ <;> simp [doResponse, doOther, getRecipientDetails, h]

/-- Witness for C5: the amended law applied to a concrete 500 response
and a decoder that would have decoded the body successfully. -/
theorem C5_do_5xx_transport_failure_witness :
    doResponse (fun _ => .ok { status := 1 })
        { statusCode := 500, body := "body", headers := [] } true =
      .error .httpPushover ∧
    getRecipientDetails (fun _ => .ok { status := 1 })
        { statusCode := 500, body := "body", headers := [] } =
      .error .httpPushover :=
  ⟨(C5_do_5xx_transport_failure { statusCode := 500, body := "body", headers := [] } true
      (fun _ => .ok { status := 1 }) (fun _ => .ok { status := 1 }) (by decide)).1,
   (C5_do_5xx_transport_failure { statusCode := 500, body := "body", headers := [] } true
      (fun _ => .ok { status := 1 }) (fun _ => .ok { status := 1 }) (by decide)).2.2⟩

/-- The receipt of the test suite (TestGetReceiptDetails), as decoded by
the custom unmarshaller. -/
def sampleReceipt : ReceiptDetails :=
  { status := 1, acknowledged := true, acknowledgedBy := "uYWtrQ4scpDU38cz5X5pvxNvu7b15",
    expired := true, calledBack := false, id := "e95f35c2d75a100a3719b3764f0c8e47",
    acknowledgedAt := some 1424305421, lastDeliveredAt := some 1424305379,
    expiresAt := some 1424308979, calledBackAt := none }

/-- Counterexample to C5 as stated: the receipt-details call
(src/pushover.go lines 411-431) has no status-class guard, so a 500
response whose body decodes is JSON-decoded and the call succeeds
instead of failing with the opaque transport error. -/
theorem C5_counterexample :
    getReceiptDetails (fun _ => .ok sampleReceipt)
        { statusCode := 500, body := "receipt-json", headers := [] } = .ok sampleReceipt ∧
    getReceiptDetails (fun _ => .ok sampleReceipt)
        { statusCode := 500, body := "receipt-json", headers := [] } ≠
      .error .httpPushover :=
  ⟨rfl, by simp [getReceiptDetails]⟩

/-! ### C6 -/

/-- C6 (amended): for responses decoded into the Response shape through
do, a status different from 1 fails the call with exactly the decoded
error-string list, verbatim and in order — a value that is returned
even when the decoded error list is empty; the recipient-details call,
whose decoded shape also carries a status field, instead fails with the
generic invalid-recipient error (see the counterexample). -/
theorem C6_status_failure_payload :
    (∀ (resp : HTTPResponse) (decode : String → Except Unit Response) (r : Response)
      (b : Bool),
      resp.statusCode < 500 → decode resp.body = .ok r → r.status ≠ 1 →
      doResponse decode resp b = .error (.apiErrors r.errors)) ∧
    (∀ (resp : HTTPResponse) (decode : String → Except Unit RecipientDetails)
      (d : RecipientDetails),
      resp.statusCode < 500 → decode resp.body = .ok d → d.status ≠ 1 →
      getRecipientDetails decode resp = .error .invalidRecipient) := by
  constructor
  · intro resp decode r b h5 hdec hst
    simp [doResponse, hdec, hst, show ¬(500 ≤ resp.statusCode) from by omega]
  · intro resp decode d h5 hdec hst
    simp [getRecipientDetails, hdec, hst, show ¬(500 ≤ resp.statusCode) from by omega]

/-- Witness for C6: the failure payload law applied to a status-0 body
with the two-element error list of the test suite, and to a status-0
body with an empty error list. -/
theorem C6_status_failure_payload_witness :
    doResponse (fun _ => .ok { status := 0, errors := ["error1", "error2"] })
        { statusCode := 200, body := "body", headers := [] } false =
      .error (.apiErrors ["error1", "error2"]) ∧
    doResponse (fun _ => .ok { status := 0, errors := [] })
        { statusCode := 200, body := "body", headers := [] } false =
      .error (.apiErrors []) :=
  ⟨C6_status_failure_payload.1 { statusCode := 200, body := "body", headers := [] }
      (fun _ => .ok { status := 0, errors := ["error1", "error2"] })
      { status := 0, errors := ["error1", "error2"] } false (by decide) rfl (by decide),
   C6_status_failure_payload.1 { statusCode := 200, body := "body", headers := [] }
      (fun _ => .ok { status := 0, errors := [] })
      { status := 0, errors := [] } false (by decide) rfl (by decide)⟩

/-- Counterexample to C6 as stated: the recipient-details call fails
with the generic ErrInvalidRecipient, not with the decoded error-string
list, on a status-0 body carrying the errors error1 and error2. -/
theorem C6_counterexample :
    getRecipientDetails
        (fun _ => .ok { status := 0, errors := ["error1", "error2"],
                        requestID := "e460545a8b333d0da2f3602aff3133d6" })
        { statusCode := 200, body := "body", headers := [] } =
      .error .invalidRecipient ∧
    CallError.invalidRecipient ≠ CallError.apiErrors ["error1", "error2"] :=
  ⟨rfl, by decide⟩

/-! ### C8 -/

/-- strings.Split never yields an empty list. -/
theorem splitComma_ne_nil (cs : List Char) : splitComma cs ≠ [] := by
  cases cs with
  | nil => simp [splitComma]
  | cons c rest =>
    unfold splitComma
    cases splitComma rest with
    | nil => split_ifs <;> simp
    | cons hd tl => split_ifs <;> simp

/-- A comma-free input splits into a single segment, itself. -/
theorem splitComma_no_comma (cs : List Char) (h : ',' ∉ cs) : splitComma cs = [cs] := by
  induction cs with
  | nil => rfl
  | cons c rest ih =>
    have hc : ¬(c = ',') := fun hh => h (hh ▸ List.mem_cons_self c rest)
    have hrest : ',' ∉ rest := fun hm => h (List.mem_cons_of_mem _ hm)
    unfold splitComma
    rw [ih hrest]
    simp [hc]

/-- Splitting at the first comma: a comma-free prefix becomes the first
segment. -/
theorem splitComma_append (xs ys : List Char) (h : ',' ∉ xs) :
    splitComma (xs ++ ',' :: ys) = xs :: splitComma ys := by
  induction xs with
  | nil =>
    obtain ⟨hd, tl, heq⟩ : ∃ hd tl, splitComma ys = hd :: tl := by
      cases hy : splitComma ys with
      | nil => exact absurd hy (splitComma_ne_nil ys)
      | cons hd tl => exact ⟨hd, tl, rfl⟩
    simp only [List.nil_append]
    rw [heq, splitComma, heq]
    simp
  | cons x xs ih =>
    have hx : ¬(x = ',') := fun hh => h (hh ▸ List.mem_cons_self x xs)
    have hxs : ',' ∉ xs := fun hm => h (List.mem_cons_of_mem _ hm)
    simp only [List.cons_append]
    rw [splitComma, ih hxs]
    simp [hx]

/-- A name matching deviceNameRegexp holds no comma, the comma not being
in the character class of the pattern. -/
theorem not_comma_mem_of_match (cs : List Char) (h : deviceNameMatchL cs = true) :
    ',' ∉ cs := by
  intro hm
  unfold deviceNameMatchL at h
  simp only [Bool.and_eq_true, List.all_eq_true, decide_eq_true_eq] at h
  exact absurd (h.2 ',' hm) (by decide)

/-- Two names matching deviceNameRegexp joined by a comma pass the
comma-separated device list check. -/
theorem deviceListOK_pair (d1 d2 : String)
    (h1 : deviceNameMatch d1 = true) (h2 : deviceNameMatch d2 = true) :
    deviceListOK (d1 ++ "," ++ d2) = true := by
  unfold deviceNameMatch at h1 h2
  have hnc1 : ',' ∉ d1.toList := not_comma_mem_of_match _ h1
  have hnc2 : ',' ∉ d2.toList := not_comma_mem_of_match _ h2
  have happ : ∀ a b : String, (a ++ b).toList = a.toList ++ b.toList := fun a b =>
    String.data_append a b
  have htl : (d1 ++ "," ++ d2).toList = d1.toList ++ ',' :: d2.toList := by
    rw [happ, happ, List.append_assoc]
    rfl
  unfold deviceListOK
  rw [htl, splitComma_append _ _ hnc1, splitComma_no_comma _ hnc2]
  simp
  exact ⟨h1, h2⟩

/-- A device list with an element failing deviceNameRegexp fails the
comma-separated device list check. -/
theorem deviceListOK_false_of_bad (d : String) (es : List Char)
    (hmem : es ∈ splitComma d.toList) (hbad : deviceNameMatchL es = false) :
    deviceListOK d = false := by
  unfold deviceListOK
  cases hall : (splitComma d.toList).all deviceNameMatchL with
  | false => rfl
  | true =>
    have := List.all_eq_true.mp hall es hmem
    rw [hbad] at this
    cases this

/-- A failing device list check makes the canonical message fail with
the invalid-device-name error. -/
theorem message_validate_bad_device (d : String) (hne : d ≠ "")
    (hbad : deviceListOK d = false) :
    Message.validate { message := "Test message", deviceName := d } =
      some .invalidDeviceName := by
  unfold Message.validate
  dsimp only
  rw [if_neg (by decide), if_neg (by decide), if_neg (by decide), if_neg (by decide),
    if_neg (by decide), if_neg (by decide), if_neg (by decide), if_neg (by decide),
    if_pos ⟨hne, by simp [hbad]⟩]

/-- A failing device list check makes the canonical glance fail with the
invalid-device-name error. -/
theorem glance_validate_bad_device (d : String) (hne : d ≠ "")
    (hbad : deviceListOK d = false) :
    Glance.validate { title := "hi", deviceName := d } = some .invalidDeviceName := by
  unfold Glance.validate
  dsimp only
  rw [if_neg (by decide), if_neg (by decide), if_neg (by decide), if_neg (by decide),
    if_neg (by decide), if_pos ⟨hne, by simp [hbad]⟩]

/-- C8: for both notification and glance validation, a device filter of
two comma-separated names each matching the restricted identifier
pattern passes the device-name check, and a comma-separated list with
any one invalid element fails with the same invalid-device-name error
as a single invalid name does. -/
theorem C8_comma_separated_device_names :
    (∀ d1 d2 : String, deviceNameMatch d1 = true → deviceNameMatch d2 = true →
      Message.validate { message := "Test message", deviceName := d1 ++ "," ++ d2 } =
          none ∧
      Glance.validate { title := "hi", deviceName := d1 ++ "," ++ d2 } = none) ∧
    (∀ (d : String) (es : List Char), d ≠ "" → es ∈ splitComma d.toList →
      deviceNameMatchL es = false →
      Message.validate { message := "Test message", deviceName := d } =
          some .invalidDeviceName ∧
      Glance.validate { title := "hi", deviceName := d } = some .invalidDeviceName) ∧
    (∀ d : String, d ≠ "" → ',' ∉ d.toList → deviceNameMatch d = false →
      Message.validate { message := "Test message", deviceName := d } =
          some .invalidDeviceName ∧
      Glance.validate { title := "hi", deviceName := d } = some .invalidDeviceName) := by
  refine ⟨?_, ?_, ?_⟩
  · intro d1 d2 h1 h2
    have hok := deviceListOK_pair d1 d2 h1 h2
    constructor
    · rw [message_validate_eq_none_iff]
      dsimp only
      exact ⟨by decide, by decide, by decide, by decide, by decide,
        fun _ => rfl, by decide, by decide, fun h => absurd h (by decide),
        fun _ => hok⟩
    · rw [glance_validate_eq_none_iff]
      dsimp only
      exact ⟨by decide, by decide, by decide, by decide, by decide, by decide,
        fun _ => hok⟩
  · intro d es hne hmem hbad
    have hbadl := deviceListOK_false_of_bad d es hmem hbad
    exact ⟨message_validate_bad_device d hne hbadl, glance_validate_bad_device d hne hbadl⟩
  · intro d hne hnc hbad
    unfold deviceNameMatch at hbad
    have hbadl : deviceListOK d = false := by
      unfold deviceListOK
      rw [splitComma_no_comma _ hnc]
      simp
      exact hbad
    exact ⟨message_validate_bad_device d hne hbadl, glance_validate_bad_device d hne hbadl⟩

/-- Witness for C8: the laws applied at the device lists of the test
suite — device1,device2 passes both validators, device1,device^2 fails
both with the invalid-device-name error, and so does the single invalid
name yo&mama. -/
theorem C8_comma_separated_device_names_witness :
    (Message.validate { message := "Test message", deviceName := "device1,device2" } =
        none ∧
      Glance.validate { title := "hi", deviceName := "device1,device2" } = none) ∧
    (Message.validate { message := "Test message", deviceName := "device1,device^2" } =
        some .invalidDeviceName ∧
      Glance.validate { title := "hi", deviceName := "device1,device^2" } =
        some .invalidDeviceName) ∧
    (Message.validate { message := "Test message", deviceName := "yo&mama" } =
        some .invalidDeviceName ∧
      Glance.validate { title := "hi", deviceName := "yo&mama" } =
        some .invalidDeviceName) :=
  ⟨C8_comma_separated_device_names.1 "device1" "device2" (by decide) (by decide),
   C8_comma_separated_device_names.2.1 "device1,device^2" "device^2".toList
     (by decide) (by decide) (by decide),
   C8_comma_separated_device_names.2.2 "yo&mama" (by decide) (by decide) (by decide)⟩

/-! ### C9 -/

/-- C9: a notification with an attachment present encodes to a
multipart body holding exactly one file part, with form-field name
"attachment" and file name "attachment", next to the same field map
carried as ordinary form fields; without an attachment the simple
url-encoded field list is used instead. -/
theorem C9_attachment_switches_to_multipart :
    (∀ (m : Message) (pt rt : String) (data : List Nat),
      m.attachment = some data → data.length ≤ MessageMaxAttachmentByte →
      m.wireRequest pt rt =
        .ok (.multipart [("attachment", "attachment", data)]
          ([("token", pt), ("user", rt)] ++ m.toMap))) ∧
    (∀ (m : Message) (pt rt : String), m.attachment = none →
      m.wireRequest pt rt =
        .ok (.urlEncoded ([("token", pt), ("user", rt)] ++ m.toMap))) := by
  constructor
  · intro m pt rt data hatt hlen
    simp [Message.wireRequest, Message.multipartRequest, hatt,
      show ¬(data.length > MessageMaxAttachmentByte) from by omega]
  · intro m pt rt hatt
    simp [Message.wireRequest, hatt]

/-- Witness for C9: the multipart law applied to the test message with
a three-byte attachment, and the url-encoded law to the same message
without one. -/
theorem C9_attachment_switches_to_multipart_witness :
    ({ message := "World", title := "Hello",
       attachment := some [1, 2, 3] } : Message).wireRequest "pToken" "rToken" =
      .ok (.multipart [("attachment", "attachment", [1, 2, 3])]
        ([("token", "pToken"), ("user", "rToken")] ++
          ({ message := "World", title := "Hello",
             attachment := some [1, 2, 3] } : Message).toMap)) ∧
    ({ message := "World", title := "Hello" } : Message).wireRequest "pToken" "rToken" =
      .ok (.urlEncoded ([("token", "pToken"), ("user", "rToken")] ++
        ({ message := "World", title := "Hello" } : Message).toMap)) :=
  ⟨C9_attachment_switches_to_multipart.1
      { message := "World", title := "Hello", attachment := some [1, 2, 3] }
      "pToken" "rToken" [1, 2, 3] rfl (by decide),
   C9_attachment_switches_to_multipart.2
      { message := "World", title := "Hello" } "pToken" "rToken" rfl⟩

end Pushover
